import Mathlib

/-!
# Verification of the PCA9534 / PCA9534A I/O-expander driver

Shallow embedding of `src/PCA9534.c` (MahdaSystem/PCA9534).  Machine bytes
are `Nat` values taken modulo 256 wherever the C code stores into a
`uint8_t`.  The platform transport (caller-supplied `Send` / `Receive`
function pointers) is modelled as state-passing functions over an abstract
transport-state type `σ`; every transport invocation made by the driver is
additionally recorded in a trace of `BusEvent`s so that properties about
emitted bus traffic can be stated.  Fallible C functions return the
`PCA9534_Result` code exactly as in the source.
-/

/-- Truncation to a `uint8_t` store. -/
def toU8 (n : Nat) : Nat := n % 256

/-- `PCA9534_Result_t` from `PCA9534.h`. -/
inductive PCA9534_Result where
  | ok
  | fail
  | invalidParam
deriving DecidableEq, Repr

/-- `PCA9534_I2C_ADDRESS_BASE` -/
def PCA9534_I2C_ADDRESS_BASE : Nat := 0x20

/-- `PCA9534A_I2C_ADDRESS_BASE` -/
def PCA9534A_I2C_ADDRESS_BASE : Nat := 0x38

/-- `PCA9534_REG_INPUT_PORT` -/
def PCA9534_REG_INPUT_PORT : Nat := 0x00

/-- `PCA9534_REG_OUTPUT_PORT` -/
def PCA9534_REG_OUTPUT_PORT : Nat := 0x01

/-- `PCA9534_REG_POLARITY_INVERT` -/
def PCA9534_REG_POLARITY_INVERT : Nat := 0x02

/-- `PCA9534_REG_CONFIGURATION` -/
def PCA9534_REG_CONFIGURATION : Nat := 0x03

/-- Enum value of `PCA9534_DEVICE_PCA9534`.  The device tag is kept as a raw
`Nat` so that unrecognized tags (possible through C enum casts) are
representable. -/
def PCA9534_DEVICE_PCA9534 : Nat := 0

/-- Enum value of `PCA9534_DEVICE_PCA9534A`. -/
def PCA9534_DEVICE_PCA9534A : Nat := 1

/-- One transport invocation made by the driver: a `Send` of a byte buffer or
a `Receive` that yielded the given bytes, both addressed to a slave. -/
inductive BusEvent where
  | send (addr : Nat) (data : List Nat)
  | receive (addr : Nat) (data : List Nat)
deriving DecidableEq, Repr

/-- `PCA9534_Platform_t`: the caller-supplied transport.  `Init`/`DeInit`
are optional (the C code null-checks them before calling); `Send`/`Receive`
are called unconditionally by the register primitives, so they are kept as
total functions together with the `SendSet`/`ReceiveSet` flags recording
whether the corresponding C function pointer is non-null (checked only by
`PCA9534_Init`).  Each function threads the transport state `σ` and returns
the C `int8_t` status. -/
structure PCA9534_Platform (σ : Type) where
  PlatformInit : Option (σ → Int × σ)
  PlatformDeInit : Option (σ → Int × σ)
  SendSet : Bool
  Send : σ → Nat → List Nat → Int × σ
  ReceiveSet : Bool
  Receive : σ → Nat → Nat → Int × List Nat × σ

/-- `PCA9534_Handler_t`. -/
structure PCA9534_Handler (σ : Type) where
  Device : Nat
  AddressI2C : Nat
  Platform : PCA9534_Platform σ

/-- `PCA9534_WriteReg`: one bus send of the 2-byte buffer
`[regAddr, data]`; a negative transport status maps to `fail`. -/
def PCA9534_WriteReg {σ : Type} (h : PCA9534_Handler σ) (Address Data : Nat)
    (s : σ) : PCA9534_Result × σ × List BusEvent :=
  let Buffer := [Address, Data]
  let r := h.Platform.Send s h.AddressI2C Buffer
  if r.1 < 0 then (.fail, r.2, [.send h.AddressI2C Buffer])
  else (.ok, r.2, [.send h.AddressI2C Buffer])

/-- `PCA9534_ReadReg`: a 1-byte send of the register address followed by a
1-byte receive; either step failing yields `fail`.  The received byte is the
second component (it lands in a `uint8_t`, hence `toU8`). -/
def PCA9534_ReadReg {σ : Type} (h : PCA9534_Handler σ) (Address : Nat)
    (s : σ) : PCA9534_Result × Nat × σ × List BusEvent :=
  let r1 := h.Platform.Send s h.AddressI2C [Address]
  if r1.1 < 0 then (.fail, 0, r1.2, [.send h.AddressI2C [Address]])
  else
    let r2 := h.Platform.Receive r1.2 h.AddressI2C 1
    if r2.1 < 0 then
      (.fail, toU8 (r2.2.1.headD 0), r2.2.2,
        [.send h.AddressI2C [Address], .receive h.AddressI2C r2.2.1])
    else
      (.ok, toU8 (r2.2.1.headD 0), r2.2.2,
        [.send h.AddressI2C [Address], .receive h.AddressI2C r2.2.1])

/-- `PCA9534_SetAddressI2C`: resolves the 7-bit bus address from the device
tag and the 3 address-pin bits; purely computational (the returned transport
state and trace witness that no bus activity occurs). -/
def PCA9534_SetAddressI2C {σ : Type} (h : PCA9534_Handler σ) (Address : Nat)
    (s : σ) : PCA9534_Result × PCA9534_Handler σ × σ × List BusEvent :=
  let Address := toU8 Address
  if Address > 7 then (.invalidParam, h, s, [])
  else if h.Device = PCA9534_DEVICE_PCA9534 then
    (.ok, { h with AddressI2C := PCA9534_I2C_ADDRESS_BASE ||| Address }, s, [])
  else if h.Device = PCA9534_DEVICE_PCA9534A then
    (.ok, { h with AddressI2C := PCA9534A_I2C_ADDRESS_BASE ||| Address }, s, [])
  else (.invalidParam, h, s, [])

/-- The three register-reset writes at the tail of `PCA9534_Init`
(output-port ← 0xFF, polarity-invert ← 0x00, configuration ← 0xFF), with the
early-exit-on-failure structure of the source. -/
def PCA9534_InitRegs {σ : Type} (h : PCA9534_Handler σ) (s : σ) :
    PCA9534_Result × PCA9534_Handler σ × σ × List BusEvent :=
  let w1 := PCA9534_WriteReg h PCA9534_REG_OUTPUT_PORT 0xFF s
  if w1.1 ≠ .ok then (.fail, h, w1.2.1, w1.2.2)
  else
    let w2 := PCA9534_WriteReg h PCA9534_REG_POLARITY_INVERT 0x00 w1.2.1
    if w2.1 ≠ .ok then (.fail, h, w2.2.1, w1.2.2 ++ w2.2.2)
    else
      let w3 := PCA9534_WriteReg h PCA9534_REG_CONFIGURATION 0xFF w2.2.1
      if w3.1 ≠ .ok then (.fail, h, w3.2.1, w1.2.2 ++ w2.2.2 ++ w3.2.2)
      else (.ok, h, w3.2.1, w1.2.2 ++ w2.2.2 ++ w3.2.2)

/-- `PCA9534_Init`: validates the device tag, stores it, resolves the
address, checks the mandatory transport functions, runs the optional
platform init, then resets the three registers. -/
def PCA9534_Init {σ : Type} (h : PCA9534_Handler σ) (Device Address : Nat)
    (s : σ) : PCA9534_Result × PCA9534_Handler σ × σ × List BusEvent :=
  if Device ≠ PCA9534_DEVICE_PCA9534 ∧ Device ≠ PCA9534_DEVICE_PCA9534A then
    (.invalidParam, h, s, [])
  else
    let h1 : PCA9534_Handler σ := { h with Device := Device }
    let ra := PCA9534_SetAddressI2C h1 Address s
    if ra.1 ≠ .ok then (.invalidParam, ra.2.1, ra.2.2.1, ra.2.2.2)
    else
      let h2 := ra.2.1
      let s1 := ra.2.2.1
      if !h2.Platform.SendSet || !h2.Platform.ReceiveSet then
        (.invalidParam, h2, s1, [])
      else
        match h2.Platform.PlatformInit with
        | some f =>
          let ri := f s1
          if ri.1 < 0 then (.fail, h2, ri.2, [])
          else PCA9534_InitRegs h2 ri.2
        | none => PCA9534_InitRegs h2 s1

/-- `PCA9534_DeInit`: runs the optional platform deinit, mapping a
non-negative status to `ok`. -/
def PCA9534_DeInit {σ : Type} (h : PCA9534_Handler σ) (s : σ) :
    PCA9534_Result × PCA9534_Handler σ × σ × List BusEvent :=
  match h.Platform.PlatformDeInit with
  | some f =>
    let r := f s
    if r.1 ≥ 0 then (.ok, h, r.2, []) else (.fail, h, r.2, [])
  | none => (.ok, h, s, [])

/-- `PCA9534_SetDir`: writes the bitwise complement of the caller's
direction mask (`Dir = ~Dir` on a `uint8_t` is `255 - Dir`) to the
configuration register. -/
def PCA9534_SetDir {σ : Type} (h : PCA9534_Handler σ) (Dir : Nat) (s : σ) :
    PCA9534_Result × PCA9534_Handler σ × σ × List BusEvent :=
  let Dir := 255 - toU8 Dir
  let w := PCA9534_WriteReg h PCA9534_REG_CONFIGURATION Dir s
  if w.1 ≠ .ok then (.fail, h, w.2.1, w.2.2)
  else (.ok, h, w.2.1, w.2.2)

/-- `PCA9534_SetDirOne`: reads the configuration register, clears bit `Pos`
when `Dir` is truthy (output) else sets it, then delegates to
`PCA9534_SetDir` with that raw register byte (which `SetDir` complements
again).  `Reg &= ~(1 << Pos)` on a `uint8_t` with `Pos ≤ 7` is
`Reg &&& (255 ^^^ (1 <<< Pos))`. -/
def PCA9534_SetDirOne {σ : Type} (h : PCA9534_Handler σ) (Pos Dir : Nat)
    (s : σ) : PCA9534_Result × PCA9534_Handler σ × σ × List BusEvent :=
  let Pos := toU8 Pos
  let Dir := toU8 Dir
  if Pos > 7 then (.invalidParam, h, s, [])
  else
    let rr := PCA9534_ReadReg h PCA9534_REG_CONFIGURATION s
    if rr.1 ≠ .ok then (.fail, h, rr.2.2.1, rr.2.2.2)
    else
      let Reg := if Dir ≠ 0 then rr.2.1 &&& (255 ^^^ (1 <<< Pos))
                 else rr.2.1 ||| (1 <<< Pos)
      let sd := PCA9534_SetDir h Reg rr.2.2.1
      (sd.1, sd.2.1, sd.2.2.1, rr.2.2.2 ++ sd.2.2.2)

/-- `PCA9534_Read`: reads the input-port register into the caller's byte.
The nullability of the C out-pointer is modelled by `DataIsNull`; the read
byte is returned as the second component. -/
def PCA9534_Read {σ : Type} (h : PCA9534_Handler σ) (DataIsNull : Bool)
    (s : σ) : PCA9534_Result × Nat × PCA9534_Handler σ × σ × List BusEvent :=
  if DataIsNull then (.invalidParam, 0, h, s, [])
  else
    let rr := PCA9534_ReadReg h PCA9534_REG_INPUT_PORT s
    if rr.1 ≠ .ok then (.fail, rr.2.1, h, rr.2.2.1, rr.2.2.2)
    else (.ok, rr.2.1, h, rr.2.2.1, rr.2.2.2)

/-- `PCA9534_Write`: writes the byte verbatim to the output-port
register. -/
def PCA9534_Write {σ : Type} (h : PCA9534_Handler σ) (Data : Nat) (s : σ) :
    PCA9534_Result × PCA9534_Handler σ × σ × List BusEvent :=
  let w := PCA9534_WriteReg h PCA9534_REG_OUTPUT_PORT (toU8 Data) s
  if w.1 ≠ .ok then (.fail, h, w.2.1, w.2.2)
  else (.ok, h, w.2.1, w.2.2)

/-- `PCA9534_WriteOne`: read-modify-write on the output-port register,
setting bit `Pos` when `Value` is truthy, clearing it otherwise. -/
def PCA9534_WriteOne {σ : Type} (h : PCA9534_Handler σ) (Pos Value : Nat)
    (s : σ) : PCA9534_Result × PCA9534_Handler σ × σ × List BusEvent :=
  let Pos := toU8 Pos
  let Value := toU8 Value
  if Pos > 7 then (.invalidParam, h, s, [])
  else
    let rr := PCA9534_ReadReg h PCA9534_REG_OUTPUT_PORT s
    if rr.1 ≠ .ok then (.fail, h, rr.2.2.1, rr.2.2.2)
    else
      let Reg := if Value ≠ 0 then rr.2.1 ||| (1 <<< Pos)
                 else rr.2.1 &&& (255 ^^^ (1 <<< Pos))
      let w := PCA9534_Write h Reg rr.2.2.1
      (w.1, w.2.1, w.2.2.1, rr.2.2.2 ++ w.2.2.2)

/-- `PCA9534_Toggle`: reads the output-port register, XORs it with the
mask, writes it back. -/
def PCA9534_Toggle {σ : Type} (h : PCA9534_Handler σ) (Mask : Nat) (s : σ) :
    PCA9534_Result × PCA9534_Handler σ × σ × List BusEvent :=
  let Mask := toU8 Mask
  let rr := PCA9534_ReadReg h PCA9534_REG_OUTPUT_PORT s
  if rr.1 ≠ .ok then (.fail, h, rr.2.2.1, rr.2.2.2)
  else
    let w := PCA9534_Write h (rr.2.1 ^^^ Mask) rr.2.2.1
    (w.1, w.2.1, w.2.2.1, rr.2.2.2 ++ w.2.2.2)

/-- `PCA9534_ToggleOne`: delegates to `PCA9534_Toggle` with
`Mask = 1 << Pos` (stored into a `uint8_t`). -/
def PCA9534_ToggleOne {σ : Type} (h : PCA9534_Handler σ) (Pos : Nat)
    (s : σ) : PCA9534_Result × PCA9534_Handler σ × σ × List BusEvent :=
  let Pos := toU8 Pos
  if Pos > 7 then (.invalidParam, h, s, [])
  else PCA9534_Toggle h (toU8 (1 <<< Pos)) s

/-! ## Simulated PCA9534 device

A register-level model of the chip used as a concrete transport: a `Send`
of `[r]` sets the register pointer, a `Send` of `[r, v]` sets the pointer
and writes the register, a `Receive` returns the register selected by the
pointer.  All transactions succeed. -/

/-- Register file and register pointer of a simulated PCA9534 chip. -/
structure PCA9534_DeviceState where
  inputPort : Nat
  outputPort : Nat
  polarityInvert : Nat
  configuration : Nat
  pointer : Nat
deriving DecidableEq, Repr

/-- Read a register of the simulated chip (input `0x00`, output `0x01`,
polarity `0x02`, configuration `0x03`). -/
def simRegRead (d : PCA9534_DeviceState) (r : Nat) : Nat :=
  if r = PCA9534_REG_INPUT_PORT then d.inputPort
  else if r = PCA9534_REG_OUTPUT_PORT then d.outputPort
  else if r = PCA9534_REG_POLARITY_INVERT then d.polarityInvert
  else if r = PCA9534_REG_CONFIGURATION then d.configuration
  else 0

/-- Write a register of the simulated chip; the input port is read-only and
unknown addresses are ignored. -/
def simRegWrite (d : PCA9534_DeviceState) (r v : Nat) : PCA9534_DeviceState :=
  if r = PCA9534_REG_OUTPUT_PORT then { d with outputPort := toU8 v }
  else if r = PCA9534_REG_POLARITY_INVERT then { d with polarityInvert := toU8 v }
  else if r = PCA9534_REG_CONFIGURATION then { d with configuration := toU8 v }
  else d

/-- Simulated transport send: 1 byte sets the register pointer, 2 bytes are
a register write; anything else is rejected. -/
def simSend (d : PCA9534_DeviceState) (_addr : Nat) (buf : List Nat) :
    Int × PCA9534_DeviceState :=
  match buf with
  | [r] => (0, { d with pointer := r })
  | [r, v] => (0, simRegWrite { d with pointer := r } r v)
  | _ => (-1, d)

/-- Simulated transport receive: returns the register currently selected by
the pointer. -/
def simReceive (d : PCA9534_DeviceState) (_addr _len : Nat) :
    Int × List Nat × PCA9534_DeviceState :=
  (0, [simRegRead d d.pointer], d)

/-- Platform built from the simulated device; no optional init/deinit. -/
def simPlatform : PCA9534_Platform PCA9534_DeviceState where
  PlatformInit := none
  PlatformDeInit := none
  SendSet := true
  Send := simSend
  ReceiveSet := true
  Receive := simReceive

/-- A handler bound to the simulated device (PCA9534, address pins 0, so
slave address `0x20`). -/
def simHandler : PCA9534_Handler PCA9534_DeviceState :=
  { Device := PCA9534_DEVICE_PCA9534, AddressI2C := 0x20, Platform := simPlatform }

/-! ## Fault-injecting transport

Wraps the simulated device with a call counter; the `failAt`-th transport
call (counting from 0) returns a negative status and leaves the device
untouched.  Used to state that a transport failure at any step aborts the
operation with no further bus calls. -/

/-- Simulated device plus a call counter and the index of the call that
fails. -/
structure FailState where
  dev : PCA9534_DeviceState
  calls : Nat
  failAt : Nat
deriving DecidableEq, Repr

/-- Send of the fault-injecting transport. -/
def failSend (s : FailState) (addr : Nat) (buf : List Nat) :
    Int × FailState :=
  if s.calls = s.failAt then (-1, { s with calls := s.calls + 1 })
  else
    let r := simSend s.dev addr buf
    (r.1, { s with dev := r.2, calls := s.calls + 1 })

/-- Receive of the fault-injecting transport. -/
def failReceive (s : FailState) (addr len : Nat) :
    Int × List Nat × FailState :=
  if s.calls = s.failAt then (-1, [0], { s with calls := s.calls + 1 })
  else
    let r := simReceive s.dev addr len
    (r.1, r.2.1, { s with dev := r.2.2, calls := s.calls + 1 })

/-- Platform of the fault-injecting transport. -/
def failPlatform : PCA9534_Platform FailState where
  PlatformInit := none
  PlatformDeInit := none
  SendSet := true
  Send := failSend
  ReceiveSet := true
  Receive := failReceive

/-- Handler bound to the fault-injecting transport. -/
def failHandler : PCA9534_Handler FailState :=
  { Device := PCA9534_DEVICE_PCA9534, AddressI2C := 0x20, Platform := failPlatform }

/-- A trivial always-succeeding transport over `Unit` state (every receive
yields a zero byte); used to instantiate universally quantified theorems. -/
def unitPlatform : PCA9534_Platform Unit where
  PlatformInit := none
  PlatformDeInit := none
  SendSet := true
  Send := fun s _ _ => (0, s)
  ReceiveSet := true
  Receive := fun s _ _ => (0, [0], s)

/-- Handler bound to the trivial transport. -/
def unitHandler : PCA9534_Handler Unit :=
  { Device := PCA9534_DEVICE_PCA9534, AddressI2C := 0x20, Platform := unitPlatform }

/-- The all-zero simulated device. -/
def devZero : PCA9534_DeviceState :=
  { inputPort := 0, outputPort := 0, polarityInvert := 0, configuration := 0,
    pointer := 0 }

/-! ## Byte arithmetic helper lemmas -/

theorem toU8_eq_of_lt {n : Nat} (hn : n < 256) : toU8 n = n :=
  Nat.mod_eq_of_lt hn

theorem toU8_lt (n : Nat) : toU8 n < 256 :=
  Nat.mod_lt _ (by norm_num)

theorem or8_lt {a b : Nat} (ha : a < 256) (hb : b < 256) : a ||| b < 256 := by
  have : a ||| b < 2 ^ 8 := Nat.or_lt_two_pow (by simpa using ha) (by simpa using hb)
  simpa using this

theorem xor8_lt {a b : Nat} (ha : a < 256) (hb : b < 256) : a ^^^ b < 256 := by
  have : a ^^^ b < 2 ^ 8 := Nat.xor_lt_two_pow (by simpa using ha) (by simpa using hb)
  simpa using this

theorem and8_lt {a : Nat} (b : Nat) (ha : a < 256) : a &&& b < 256 :=
  lt_of_le_of_lt Nat.and_le_left ha

theorem shift8_lt {p : Nat} (hp : p ≤ 7) : 1 <<< p < 256 := by
  rw [Nat.shiftLeft_eq, one_mul]
  calc 2 ^ p ≤ 2 ^ 7 := Nat.pow_le_pow_right (by norm_num) hp
    _ < 256 := by norm_num

/-! ## Claim theorems -/

/-- C1.  The claim states that `PCA9534_SetDirOne(handler, Pos, Dir)` emits a
configuration-register write whose byte differs from the previously read
configuration value only at bit `Pos`, with bit `Pos` equal to the device
convention for `Dir` (0 for output, 1 for input).  The code instead passes
the raw modified register byte back through `PCA9534_SetDir`, which
complements it once more: at `Pos = 0`, `Dir = 1` (output) with the
configuration register reading `0x00`, a correct read-modify-write would
write back `0x00`, but the driver emits `[0x03, 0xFF]` — every other bit is
flipped and bit 0 is 1 (input convention) instead of 0. -/
theorem setDirOne_doubleComplement_eval :
    (PCA9534_SetDirOne simHandler 0 1 devZero).1 = .ok ∧
    (PCA9534_SetDirOne simHandler 0 1 devZero).2.2.2 =
      [.send 0x20 [PCA9534_REG_CONFIGURATION],
       .receive 0x20 [0x00],
       .send 0x20 [PCA9534_REG_CONFIGURATION, 0xFF]] ∧
    (PCA9534_SetDirOne simHandler 0 1 devZero).2.2.1.configuration = 0xFF := by
  decide

/-- C2.  `PCA9534_SetAddressI2C` with address pins in `[0,7]` resolves the
bus address to `base ||| pins` (`0x20` for PCA9534, `0x38` for PCA9534A),
returns `ok` and leaves the other handler fields alone; with pins `> 7` it
returns `invalidParam` leaving the handler untouched; in every case it
performs no transport call (state unchanged, empty trace). -/
theorem setAddressI2C_spec {σ : Type} (h : PCA9534_Handler σ) (s : σ)
    (Address : Nat) (hA : Address < 256) :
    ((PCA9534_SetAddressI2C h Address s).2.2.1 = s ∧
      (PCA9534_SetAddressI2C h Address s).2.2.2 = []) ∧
    (Address ≤ 7 → h.Device = PCA9534_DEVICE_PCA9534 →
      (PCA9534_SetAddressI2C h Address s).1 = .ok ∧
      (PCA9534_SetAddressI2C h Address s).2.1.AddressI2C =
        PCA9534_I2C_ADDRESS_BASE ||| Address ∧
      (PCA9534_SetAddressI2C h Address s).2.1.Device = h.Device ∧
      (PCA9534_SetAddressI2C h Address s).2.1.Platform = h.Platform) ∧
    (Address ≤ 7 → h.Device = PCA9534_DEVICE_PCA9534A →
      (PCA9534_SetAddressI2C h Address s).1 = .ok ∧
      (PCA9534_SetAddressI2C h Address s).2.1.AddressI2C =
        PCA9534A_I2C_ADDRESS_BASE ||| Address ∧
      (PCA9534_SetAddressI2C h Address s).2.1.Device = h.Device ∧
      (PCA9534_SetAddressI2C h Address s).2.1.Platform = h.Platform) ∧
    (Address > 7 →
      (PCA9534_SetAddressI2C h Address s).1 = .invalidParam ∧
      (PCA9534_SetAddressI2C h Address s).2.1 = h) := by
  simp only [PCA9534_SetAddressI2C, toU8, Nat.mod_eq_of_lt hA]
  refine ⟨?_, ?_, ?_, ?_⟩
  · split
    · exact ⟨rfl, rfl⟩
    · split
      · exact ⟨rfl, rfl⟩
      · split
        · exact ⟨rfl, rfl⟩
        · exact ⟨rfl, rfl⟩
  · intro h7 hdev
    rw [if_neg (by omega), if_pos hdev]
    exact ⟨rfl, rfl, by simp [hdev, PCA9534_DEVICE_PCA9534], rfl⟩
  · intro h7 hdev
    have hne : h.Device ≠ PCA9534_DEVICE_PCA9534 := by
      rw [hdev]; simp [PCA9534_DEVICE_PCA9534, PCA9534_DEVICE_PCA9534A]
    rw [if_neg (by omega), if_neg hne, if_pos hdev]
    exact ⟨rfl, rfl, by simp [hdev], rfl⟩
  · intro h7
    rw [if_pos h7]
    exact ⟨rfl, rfl⟩

/-- C2 witness. -/
theorem setAddressI2C_spec_witness :
    (5 : Nat) < 256 ∧
    ((PCA9534_SetAddressI2C unitHandler 5 ()).1 = .ok ∧
      (PCA9534_SetAddressI2C unitHandler 5 ()).2.1.AddressI2C =
        PCA9534_I2C_ADDRESS_BASE ||| 5) ∧
    (PCA9534_SetAddressI2C unitHandler 200 ()).1 = .invalidParam := by
  have h1 := setAddressI2C_spec unitHandler () 5 (by norm_num)
  have h2 := setAddressI2C_spec unitHandler () 200 (by norm_num)
  refine ⟨by norm_num, ?_, (h2.2.2.2 (by norm_num)).1⟩
  have := h1.2.1 (by norm_num) (by decide)
  exact ⟨this.1, this.2.1⟩

/-- C4.  `PCA9534_SetDir` issues exactly one register write, to the
configuration register, whose data byte is the 8-bit complement
`255 - dirMask`; it returns `ok` exactly when the transport send reports
success and `fail` when it reports failure; the handler is unchanged. -/
theorem setDir_spec {σ : Type} (h : PCA9534_Handler σ) (s : σ) (Dir : Nat)
    (hD : Dir < 256) :
    (PCA9534_SetDir h Dir s).2.2.2 =
      [.send h.AddressI2C [PCA9534_REG_CONFIGURATION, 255 - Dir]] ∧
    (PCA9534_SetDir h Dir s).2.2.1 =
      (h.Platform.Send s h.AddressI2C [PCA9534_REG_CONFIGURATION, 255 - Dir]).2 ∧
    (PCA9534_SetDir h Dir s).2.1 = h ∧
    ((h.Platform.Send s h.AddressI2C [PCA9534_REG_CONFIGURATION, 255 - Dir]).1 < 0 →
      (PCA9534_SetDir h Dir s).1 = .fail) ∧
    (0 ≤ (h.Platform.Send s h.AddressI2C [PCA9534_REG_CONFIGURATION, 255 - Dir]).1 →
      (PCA9534_SetDir h Dir s).1 = .ok) := by
  simp only [PCA9534_SetDir, PCA9534_WriteReg, toU8, Nat.mod_eq_of_lt hD]
  split
  · refine ⟨rfl, rfl, rfl, fun _ => rfl, fun hge => absurd (by assumption) (by omega)⟩
  · refine ⟨rfl, rfl, rfl, fun hlt => absurd hlt (by assumption), fun _ => rfl⟩

/-- C4 witness. -/
theorem setDir_spec_witness :
    (1 : Nat) < 256 ∧
    (PCA9534_SetDir unitHandler 1 ()).2.2.2 =
      [.send 0x20 [PCA9534_REG_CONFIGURATION, 0xFE]] ∧
    (PCA9534_SetDir unitHandler 1 ()).1 = .ok := by
  have h1 := setDir_spec unitHandler () 1 (by norm_num)
  exact ⟨by norm_num, h1.1, h1.2.2.2.2 (by decide)⟩

/-- C7.  For `Pos ≤ 7`, `PCA9534_ToggleOne h Pos` is literally the same
computation as `PCA9534_Toggle h (1 <<< Pos)` over any transport and any
starting state: same result code, same final handler, same final transport
state, same bus traffic. -/
theorem toggleOne_eq_toggle {σ : Type} (h : PCA9534_Handler σ) (s : σ)
    (Pos : Nat) (hp : Pos ≤ 7) :
    PCA9534_ToggleOne h Pos s = PCA9534_Toggle h (1 <<< Pos) s := by
  have h256 : Pos < 256 := lt_of_le_of_lt hp (by norm_num)
  have hsh : 1 <<< Pos < 256 := shift8_lt hp
  simp only [PCA9534_ToggleOne, toU8, Nat.mod_eq_of_lt h256, Nat.mod_eq_of_lt hsh]
  rw [if_neg (by omega)]

/-- C7 witness. -/
theorem toggleOne_eq_toggle_witness :
    (3 : Nat) ≤ 7 ∧
    PCA9534_ToggleOne simHandler 3 devZero =
      PCA9534_Toggle simHandler (1 <<< 3) devZero :=
  ⟨by norm_num, toggleOne_eq_toggle simHandler devZero 3 (by norm_num)⟩

/-- The register-reset traffic of a successful `PCA9534_Init` against slave
address `addr`: output-port ← `0xFF`, polarity-invert ← `0x00`,
configuration ← `0xFF`, in this order. -/
def PCA9534_InitTrace (addr : Nat) : List BusEvent :=
  [.send addr [PCA9534_REG_OUTPUT_PORT, 0xFF],
   .send addr [PCA9534_REG_POLARITY_INVERT, 0x00],
   .send addr [PCA9534_REG_CONFIGURATION, 0xFF]]

/-- Closed form of the register-write primitive over an arbitrary
transport. -/
theorem writeReg_eq {σ : Type} (h : PCA9534_Handler σ) (r v : Nat) (t : σ) :
    PCA9534_WriteReg h r v t =
      ((if (h.Platform.Send t h.AddressI2C [r, v]).1 < 0 then .fail else .ok),
        (h.Platform.Send t h.AddressI2C [r, v]).2,
        [.send h.AddressI2C [r, v]]) := by
  simp only [PCA9534_WriteReg]
  split <;> simp_all

/-- The transport state from which `PCA9534_Init`'s register writes start:
the state after the optional platform-init call (the state is unchanged when
no platform init is configured). -/
def PCA9534_InitState {σ : Type} (h : PCA9534_Handler σ) (s : σ) : σ :=
  match h.Platform.PlatformInit with
  | some f => (f s).2
  | none => s

/-- The slave address `PCA9534_Init` resolves for a valid device tag and
address pins. -/
def PCA9534_ResolvedAddr (Device Address : Nat) : Nat :=
  (if Device = PCA9534_DEVICE_PCA9534 then PCA9534_I2C_ADDRESS_BASE
   else PCA9534A_I2C_ADDRESS_BASE) ||| Address

/-- The transport's response to the first reset write (output-port ← `0xFF`)
of `PCA9534_Init`. -/
def PCA9534_InitSend1 {σ : Type} (h : PCA9534_Handler σ) (Device Address : Nat)
    (s : σ) : Int × σ :=
  h.Platform.Send (PCA9534_InitState h s) (PCA9534_ResolvedAddr Device Address)
    [PCA9534_REG_OUTPUT_PORT, 0xFF]

/-- The transport's response to the second reset write
(polarity-invert ← `0x00`) of `PCA9534_Init`. -/
def PCA9534_InitSend2 {σ : Type} (h : PCA9534_Handler σ) (Device Address : Nat)
    (s : σ) : Int × σ :=
  h.Platform.Send (PCA9534_InitSend1 h Device Address s).2
    (PCA9534_ResolvedAddr Device Address) [PCA9534_REG_POLARITY_INVERT, 0x00]

/-- The transport's response to the third reset write
(configuration ← `0xFF`) of `PCA9534_Init`. -/
def PCA9534_InitSend3 {σ : Type} (h : PCA9534_Handler σ) (Device Address : Nat)
    (s : σ) : Int × σ :=
  h.Platform.Send (PCA9534_InitSend2 h Device Address s).2
    (PCA9534_ResolvedAddr Device Address) [PCA9534_REG_CONFIGURATION, 0xFF]

/-- Complete case analysis of the register-reset tail of `PCA9534_Init`
over an arbitrary transport: a failing write makes it return `fail` with the
trace ending exactly at the failing write (earlier writes kept, no later
call), and when all three writes succeed it returns `ok` with the full
nominal trace. -/
theorem initRegs_cases {σ : Type} (g : PCA9534_Handler σ) (t : σ) :
    ((g.Platform.Send t g.AddressI2C [PCA9534_REG_OUTPUT_PORT, 0xFF]).1 < 0 →
      PCA9534_InitRegs g t =
        (.fail, g, (g.Platform.Send t g.AddressI2C [PCA9534_REG_OUTPUT_PORT, 0xFF]).2,
          (PCA9534_InitTrace g.AddressI2C).take 1)) ∧
    (0 ≤ (g.Platform.Send t g.AddressI2C [PCA9534_REG_OUTPUT_PORT, 0xFF]).1 →
      (g.Platform.Send
        (g.Platform.Send t g.AddressI2C [PCA9534_REG_OUTPUT_PORT, 0xFF]).2
        g.AddressI2C [PCA9534_REG_POLARITY_INVERT, 0x00]).1 < 0 →
      PCA9534_InitRegs g t =
        (.fail, g,
          (g.Platform.Send
            (g.Platform.Send t g.AddressI2C [PCA9534_REG_OUTPUT_PORT, 0xFF]).2
            g.AddressI2C [PCA9534_REG_POLARITY_INVERT, 0x00]).2,
          (PCA9534_InitTrace g.AddressI2C).take 2)) ∧
    (0 ≤ (g.Platform.Send t g.AddressI2C [PCA9534_REG_OUTPUT_PORT, 0xFF]).1 →
      0 ≤ (g.Platform.Send
        (g.Platform.Send t g.AddressI2C [PCA9534_REG_OUTPUT_PORT, 0xFF]).2
        g.AddressI2C [PCA9534_REG_POLARITY_INVERT, 0x00]).1 →
      (g.Platform.Send
        (g.Platform.Send
          (g.Platform.Send t g.AddressI2C [PCA9534_REG_OUTPUT_PORT, 0xFF]).2
          g.AddressI2C [PCA9534_REG_POLARITY_INVERT, 0x00]).2
        g.AddressI2C [PCA9534_REG_CONFIGURATION, 0xFF]).1 < 0 →
      PCA9534_InitRegs g t =
        (.fail, g,
          (g.Platform.Send
            (g.Platform.Send
              (g.Platform.Send t g.AddressI2C [PCA9534_REG_OUTPUT_PORT, 0xFF]).2
              g.AddressI2C [PCA9534_REG_POLARITY_INVERT, 0x00]).2
            g.AddressI2C [PCA9534_REG_CONFIGURATION, 0xFF]).2,
          PCA9534_InitTrace g.AddressI2C)) ∧
    (0 ≤ (g.Platform.Send t g.AddressI2C [PCA9534_REG_OUTPUT_PORT, 0xFF]).1 →
      0 ≤ (g.Platform.Send
        (g.Platform.Send t g.AddressI2C [PCA9534_REG_OUTPUT_PORT, 0xFF]).2
        g.AddressI2C [PCA9534_REG_POLARITY_INVERT, 0x00]).1 →
      0 ≤ (g.Platform.Send
        (g.Platform.Send
          (g.Platform.Send t g.AddressI2C [PCA9534_REG_OUTPUT_PORT, 0xFF]).2
          g.AddressI2C [PCA9534_REG_POLARITY_INVERT, 0x00]).2
        g.AddressI2C [PCA9534_REG_CONFIGURATION, 0xFF]).1 →
      PCA9534_InitRegs g t =
        (.ok, g,
          (g.Platform.Send
            (g.Platform.Send
              (g.Platform.Send t g.AddressI2C [PCA9534_REG_OUTPUT_PORT, 0xFF]).2
              g.AddressI2C [PCA9534_REG_POLARITY_INVERT, 0x00]).2
            g.AddressI2C [PCA9534_REG_CONFIGURATION, 0xFF]).2,
          PCA9534_InitTrace g.AddressI2C)) := by
  refine ⟨?_, ?_, ?_, ?_⟩
  · intro hw1
    simp [PCA9534_InitRegs, writeReg_eq, hw1, PCA9534_InitTrace]
  · intro hw1 hw2
    have h1 : ¬ (g.Platform.Send t g.AddressI2C [PCA9534_REG_OUTPUT_PORT, 0xFF]).1 < 0 := by
      omega
    simp [PCA9534_InitRegs, writeReg_eq, h1, hw2, PCA9534_InitTrace]
  · intro hw1 hw2 hw3
    have h1 : ¬ (g.Platform.Send t g.AddressI2C [PCA9534_REG_OUTPUT_PORT, 0xFF]).1 < 0 := by
      omega
    have h2 : ¬ (g.Platform.Send
        (g.Platform.Send t g.AddressI2C [PCA9534_REG_OUTPUT_PORT, 0xFF]).2
        g.AddressI2C [PCA9534_REG_POLARITY_INVERT, 0x00]).1 < 0 := by omega
    simp [PCA9534_InitRegs, writeReg_eq, h1, h2, hw3, PCA9534_InitTrace]
  · intro hw1 hw2 hw3
    have h1 : ¬ (g.Platform.Send t g.AddressI2C [PCA9534_REG_OUTPUT_PORT, 0xFF]).1 < 0 := by
      omega
    have h2 : ¬ (g.Platform.Send
        (g.Platform.Send t g.AddressI2C [PCA9534_REG_OUTPUT_PORT, 0xFF]).2
        g.AddressI2C [PCA9534_REG_POLARITY_INVERT, 0x00]).1 < 0 := by omega
    have h3 : ¬ (g.Platform.Send
        (g.Platform.Send
          (g.Platform.Send t g.AddressI2C [PCA9534_REG_OUTPUT_PORT, 0xFF]).2
          g.AddressI2C [PCA9534_REG_POLARITY_INVERT, 0x00]).2
        g.AddressI2C [PCA9534_REG_CONFIGURATION, 0xFF]).1 < 0 := by omega
    simp [PCA9534_InitRegs, writeReg_eq, h1, h2, h3, PCA9534_InitTrace]

/-- C3.  `PCA9534_Init` with a valid device tag, address pins in `[0,7]`,
both mandatory transport functions set and a succeeding optional
platform-init: when every register write succeeds it returns `ok` having
issued exactly the three writes output-port ← `0xFF`,
polarity-invert ← `0x00`, configuration ← `0xFF`, in that order, at the
resolved slave address; and a failure of the first, second or third register
write makes it return `fail` with the bus trace being exactly the writes up
to and including the failing one — the earlier writes are not rolled back
and no transport call follows the failing one. -/
theorem init_spec {σ : Type} (h : PCA9534_Handler σ) (s : σ)
    (Device Address : Nat)
    (hdev : Device = PCA9534_DEVICE_PCA9534 ∨ Device = PCA9534_DEVICE_PCA9534A)
    (hA : Address ≤ 7)
    (hsend : h.Platform.SendSet = true) (hrecv : h.Platform.ReceiveSet = true)
    (hinit : ∀ f, h.Platform.PlatformInit = some f → ∀ u, 0 ≤ (f u).1) :
    ((PCA9534_InitSend1 h Device Address s).1 < 0 →
      (PCA9534_Init h Device Address s).1 = .fail ∧
      (PCA9534_Init h Device Address s).2.2.2 =
        (PCA9534_InitTrace (PCA9534_ResolvedAddr Device Address)).take 1) ∧
    (0 ≤ (PCA9534_InitSend1 h Device Address s).1 →
      (PCA9534_InitSend2 h Device Address s).1 < 0 →
      (PCA9534_Init h Device Address s).1 = .fail ∧
      (PCA9534_Init h Device Address s).2.2.2 =
        (PCA9534_InitTrace (PCA9534_ResolvedAddr Device Address)).take 2) ∧
    (0 ≤ (PCA9534_InitSend1 h Device Address s).1 →
      0 ≤ (PCA9534_InitSend2 h Device Address s).1 →
      (PCA9534_InitSend3 h Device Address s).1 < 0 →
      (PCA9534_Init h Device Address s).1 = .fail ∧
      (PCA9534_Init h Device Address s).2.2.2 =
        PCA9534_InitTrace (PCA9534_ResolvedAddr Device Address)) ∧
    (0 ≤ (PCA9534_InitSend1 h Device Address s).1 →
      0 ≤ (PCA9534_InitSend2 h Device Address s).1 →
      0 ≤ (PCA9534_InitSend3 h Device Address s).1 →
      (PCA9534_Init h Device Address s).1 = .ok ∧
      (PCA9534_Init h Device Address s).2.2.2 =
        PCA9534_InitTrace (PCA9534_ResolvedAddr Device Address)) := by
  have hA256 : Address < 256 := by omega
  have hEq : PCA9534_Init h Device Address s =
      PCA9534_InitRegs
        { h with Device := Device,
                 AddressI2C := PCA9534_ResolvedAddr Device Address }
        (PCA9534_InitState h s) := by
    rcases hdev with hd | hd <;> subst hd
    · cases hpi : h.Platform.PlatformInit with
      | none =>
        simp [PCA9534_Init, PCA9534_SetAddressI2C, toU8_eq_of_lt hA256,
          Nat.not_lt.mpr hA, hsend, hrecv, hpi, PCA9534_InitState,
          PCA9534_ResolvedAddr, PCA9534_DEVICE_PCA9534, PCA9534_DEVICE_PCA9534A]
      | some f =>
        have hfs : ((f s).1 < 0) = False :=
          eq_false (Int.not_lt.mpr (hinit f hpi s))
        simp [PCA9534_Init, PCA9534_SetAddressI2C, toU8_eq_of_lt hA256,
          Nat.not_lt.mpr hA, hsend, hrecv, hpi, hfs, PCA9534_InitState,
          PCA9534_ResolvedAddr, PCA9534_DEVICE_PCA9534, PCA9534_DEVICE_PCA9534A]
    · cases hpi : h.Platform.PlatformInit with
      | none =>
        simp [PCA9534_Init, PCA9534_SetAddressI2C, toU8_eq_of_lt hA256,
          Nat.not_lt.mpr hA, hsend, hrecv, hpi, PCA9534_InitState,
          PCA9534_ResolvedAddr, PCA9534_DEVICE_PCA9534, PCA9534_DEVICE_PCA9534A]
      | some f =>
        have hfs : ((f s).1 < 0) = False :=
          eq_false (Int.not_lt.mpr (hinit f hpi s))
        simp [PCA9534_Init, PCA9534_SetAddressI2C, toU8_eq_of_lt hA256,
          Nat.not_lt.mpr hA, hsend, hrecv, hpi, hfs, PCA9534_InitState,
          PCA9534_ResolvedAddr, PCA9534_DEVICE_PCA9534, PCA9534_DEVICE_PCA9534A]
  obtain ⟨c1, c2, c3, c4⟩ := initRegs_cases
    { h with Device := Device,
             AddressI2C := PCA9534_ResolvedAddr Device Address }
    (PCA9534_InitState h s)
  refine ⟨fun hw1 => ?_, fun hw1 hw2 => ?_, fun hw1 hw2 hw3 => ?_,
    fun hw1 hw2 hw3 => ?_⟩
  · rw [hEq, c1 hw1]
    exact ⟨rfl, rfl⟩
  · rw [hEq, c2 hw1 hw2]
    exact ⟨rfl, rfl⟩
  · rw [hEq, c3 hw1 hw2 hw3]
    exact ⟨rfl, rfl⟩
  · rw [hEq, c4 hw1 hw2 hw3]
    exact ⟨rfl, rfl⟩

/-- C3 witness: device PCA9534 with address pins 3 resolves to slave
address `0x23`; against the always-acknowledging transport all three reset
writes succeed, so `Init` returns `ok` with exactly the three nominal
writes. -/
theorem init_spec_witness :
    (((0 : Nat) = PCA9534_DEVICE_PCA9534 ∨ (0 : Nat) = PCA9534_DEVICE_PCA9534A) ∧
      (3 : Nat) ≤ 7 ∧ unitHandler.Platform.SendSet = true ∧
      unitHandler.Platform.ReceiveSet = true ∧
      0 ≤ (PCA9534_InitSend1 unitHandler 0 3 ()).1 ∧
      0 ≤ (PCA9534_InitSend2 unitHandler 0 3 ()).1 ∧
      0 ≤ (PCA9534_InitSend3 unitHandler 0 3 ()).1) ∧
    (PCA9534_Init unitHandler 0 3 ()).1 = .ok ∧
    (PCA9534_Init unitHandler 0 3 ()).2.2.2 = PCA9534_InitTrace 0x23 := by
  have h := init_spec unitHandler () 0 3 (Or.inl rfl) (by norm_num) rfl rfl
    (fun f hf => by simp [unitHandler, unitPlatform] at hf)
  have h4 := h.2.2.2 (by decide) (by decide) (by decide)
  refine ⟨⟨Or.inl rfl, by norm_num, rfl, rfl, by decide, by decide, by decide⟩,
    h4.1, ?_⟩
  rw [h4.2]
  decide

/-- C8.  Against the fault-injecting transport (which makes exactly the
`failAt`-th transport call report failure), each of `Read`, `Write`,
`WriteOne` and `Toggle` returns `fail` whenever the injected failure falls
on any of its transport calls, and its bus trace stops right at the failing
call (`failAt + 1` events — no later call, no retry); in particular a failed
read half of a read-modify-write (`failAt ∈ {0, 1}`, trace length `≤ 2`)
suppresses the write half.  When the failure falls beyond the operation's
calls, the operation succeeds. -/
theorem transport_failure_aborts (d : PCA9534_DeviceState)
    (Pos Value Mask Data : Nat) (hp : Pos ≤ 7) :
    ((PCA9534_Read failHandler false ⟨d, 0, 0⟩).1 = .fail ∧
      (PCA9534_Read failHandler false ⟨d, 0, 0⟩).2.2.2.2.length = 1) ∧
    ((PCA9534_Read failHandler false ⟨d, 0, 1⟩).1 = .fail ∧
      (PCA9534_Read failHandler false ⟨d, 0, 1⟩).2.2.2.2.length = 2) ∧
    (PCA9534_Read failHandler false ⟨d, 0, 2⟩).1 = .ok ∧
    ((PCA9534_Write failHandler Data ⟨d, 0, 0⟩).1 = .fail ∧
      (PCA9534_Write failHandler Data ⟨d, 0, 0⟩).2.2.2.length = 1) ∧
    (PCA9534_Write failHandler Data ⟨d, 0, 1⟩).1 = .ok ∧
    ((PCA9534_WriteOne failHandler Pos Value ⟨d, 0, 0⟩).1 = .fail ∧
      (PCA9534_WriteOne failHandler Pos Value ⟨d, 0, 0⟩).2.2.2.length = 1) ∧
    ((PCA9534_WriteOne failHandler Pos Value ⟨d, 0, 1⟩).1 = .fail ∧
      (PCA9534_WriteOne failHandler Pos Value ⟨d, 0, 1⟩).2.2.2.length = 2) ∧
    ((PCA9534_WriteOne failHandler Pos Value ⟨d, 0, 2⟩).1 = .fail ∧
      (PCA9534_WriteOne failHandler Pos Value ⟨d, 0, 2⟩).2.2.2.length = 3) ∧
    (PCA9534_WriteOne failHandler Pos Value ⟨d, 0, 3⟩).1 = .ok ∧
    ((PCA9534_Toggle failHandler Mask ⟨d, 0, 0⟩).1 = .fail ∧
      (PCA9534_Toggle failHandler Mask ⟨d, 0, 0⟩).2.2.2.length = 1) ∧
    ((PCA9534_Toggle failHandler Mask ⟨d, 0, 1⟩).1 = .fail ∧
      (PCA9534_Toggle failHandler Mask ⟨d, 0, 1⟩).2.2.2.length = 2) ∧
    ((PCA9534_Toggle failHandler Mask ⟨d, 0, 2⟩).1 = .fail ∧
      (PCA9534_Toggle failHandler Mask ⟨d, 0, 2⟩).2.2.2.length = 3) ∧
    (PCA9534_Toggle failHandler Mask ⟨d, 0, 3⟩).1 = .ok := by
  have hP : Pos < 256 := by omega
  refine ⟨?_, ?_, ?_, ?_, ?_, ?_, ?_, ?_, ?_, ?_, ?_, ?_, ?_⟩
  all_goals
    simp [PCA9534_Read, PCA9534_Write, PCA9534_WriteOne, PCA9534_Toggle,
      PCA9534_ReadReg, PCA9534_WriteReg, failHandler, failPlatform, failSend,
      failReceive, simSend, simReceive, toU8_eq_of_lt hP, Nat.not_lt.mpr hp]

/-- C8 witness. -/
theorem transport_failure_aborts_witness :
    (3 : Nat) ≤ 7 ∧
    (PCA9534_WriteOne failHandler 3 1 ⟨devZero, 0, 1⟩).1 = .fail ∧
    (PCA9534_WriteOne failHandler 3 1 ⟨devZero, 0, 1⟩).2.2.2.length = 2 := by
  have h := transport_failure_aborts devZero 3 1 0 0 (by norm_num)
  exact ⟨by norm_num, h.2.2.2.2.2.2.1⟩

/-- Behaviour of the register-read primitive against the simulated device:
always succeeds, returns the selected register, records the two bus
transactions. -/
theorem sim_readReg (d : PCA9534_DeviceState) (r : Nat) :
    PCA9534_ReadReg simHandler r d =
      (.ok, toU8 (simRegRead d r), { d with pointer := r },
        [.send 0x20 [r], .receive 0x20 [simRegRead d r]]) := by
  simp [PCA9534_ReadReg, simHandler, simPlatform, simSend, simReceive, simRegRead]

/-- Behaviour of the register-write primitive against the simulated device:
always succeeds and applies the register write. -/
theorem sim_writeReg (d : PCA9534_DeviceState) (r v : Nat) :
    PCA9534_WriteReg simHandler r v d =
      (.ok, simRegWrite { d with pointer := r } r v, [.send 0x20 [r, v]]) := by
  simp [PCA9534_WriteReg, simHandler, simPlatform, simSend]

/-- C5.  `PCA9534_WriteOne` against a simulated device whose output register
holds `R` reads the output-port register and then writes back
`R ||| (1 <<< Pos)` when `Value` is nonzero and
`R &&& ~(1 <<< Pos)` when `Value` is zero; the call succeeds and the final
output register holds exactly that byte. -/
theorem writeOne_rmw (d : PCA9534_DeviceState) (Pos Value : Nat)
    (hp : Pos ≤ 7) (ho : d.outputPort < 256) (hv : Value < 256) :
    (PCA9534_WriteOne simHandler Pos Value d).1 = .ok ∧
    (PCA9534_WriteOne simHandler Pos Value d).2.2.2 =
      [.send 0x20 [PCA9534_REG_OUTPUT_PORT],
       .receive 0x20 [d.outputPort],
       .send 0x20 [PCA9534_REG_OUTPUT_PORT,
         if Value ≠ 0 then d.outputPort ||| (1 <<< Pos)
         else d.outputPort &&& (255 ^^^ (1 <<< Pos))]] ∧
    (PCA9534_WriteOne simHandler Pos Value d).2.2.1.outputPort =
      (if Value ≠ 0 then d.outputPort ||| (1 <<< Pos)
       else d.outputPort &&& (255 ^^^ (1 <<< Pos))) := by
  have hP : Pos < 256 := by omega
  have hX : (if Value ≠ 0 then d.outputPort ||| (1 <<< Pos)
      else d.outputPort &&& (255 ^^^ (1 <<< Pos))) < 256 := by
    split
    · exact or8_lt ho (shift8_lt hp)
    · exact and8_lt _ ho
  simp only [PCA9534_WriteOne, PCA9534_Write, sim_readReg, sim_writeReg,
    toU8_eq_of_lt hP, toU8_eq_of_lt hv, toU8_eq_of_lt ho, toU8_eq_of_lt hX]
  rw [if_neg (by omega)]
  have hX2 : (if Value = 0 then d.outputPort &&& (255 ^^^ (1 <<< Pos))
      else d.outputPort ||| (1 <<< Pos)) < 256 := by
    split
    · exact and8_lt _ ho
    · exact or8_lt ho (shift8_lt hp)
  simp [simRegRead, simRegWrite, PCA9534_REG_OUTPUT_PORT, PCA9534_REG_INPUT_PORT,
    toU8_eq_of_lt ho, toU8_eq_of_lt hX, toU8_eq_of_lt hX2]

/-- C5 witness: from `R = 0x00`, `WriteOne(5, 1)` ends with an
output-register write of `1 <<< 5 = 0x20`; from `R = 0xFF`, `WriteOne(5, 0)`
ends with `0xFF &&& ~(1 <<< 5) = 0xDF`. -/
theorem writeOne_rmw_witness :
    ((5 : Nat) ≤ 7 ∧ devZero.outputPort < 256 ∧ (1 : Nat) < 256 ∧
      (PCA9534_WriteOne simHandler 5 1 devZero).2.2.1.outputPort = 0x20) ∧
    ({ devZero with outputPort := 0xFF : PCA9534_DeviceState }.outputPort < 256 ∧
      (PCA9534_WriteOne simHandler 5 0
        { devZero with outputPort := 0xFF }).2.2.1.outputPort = 0xDF) := by
  have h1 := writeOne_rmw devZero 5 1 (by norm_num) (by decide) (by norm_num)
  have h2 := writeOne_rmw { devZero with outputPort := 0xFF } 5 0
    (by norm_num) (by decide) (by norm_num)
  refine ⟨⟨by norm_num, by decide, by norm_num, ?_⟩, by decide, ?_⟩
  · rw [h1.2.2]; decide
  · rw [h2.2.2]; decide

/-- C6.  Running `PCA9534_Toggle` twice with the same mask against the
simulated device (whose registers change only through these calls) restores
the original output-register value, and both calls succeed. -/
theorem toggle_involution (d : PCA9534_DeviceState) (Mask : Nat)
    (ho : d.outputPort < 256) :
    (PCA9534_Toggle simHandler Mask d).1 = .ok ∧
    (PCA9534_Toggle simHandler Mask
      (PCA9534_Toggle simHandler Mask d).2.2.1).1 = .ok ∧
    (PCA9534_Toggle simHandler Mask
      (PCA9534_Toggle simHandler Mask d).2.2.1).2.2.1.outputPort =
      d.outputPort := by
  have hm : toU8 Mask < 256 := toU8_lt Mask
  have hx : d.outputPort ^^^ toU8 Mask < 256 := xor8_lt ho hm
  simp only [PCA9534_Toggle, PCA9534_Write, sim_readReg, sim_writeReg]
  simp [simRegRead, simRegWrite, PCA9534_REG_OUTPUT_PORT, PCA9534_REG_INPUT_PORT,
    toU8_eq_of_lt ho, toU8_eq_of_lt hx, Nat.xor_cancel_right]

/-- C6 witness. -/
theorem toggle_involution_witness :
    ({ devZero with outputPort := 0xA5 : PCA9534_DeviceState }.outputPort < 256 ∧
      (PCA9534_Toggle simHandler 0x3C
        (PCA9534_Toggle simHandler 0x3C
          { devZero with outputPort := 0xA5 }).2.2.1).2.2.1.outputPort = 0xA5) :=
  ⟨by decide,
    (toggle_involution { devZero with outputPort := 0xA5 } 0x3C (by decide)).2.2⟩

/-- C9.  Parameter validation happens before any bus activity: `Init` with
an unrecognized device tag, with address pins `> 7`, or with a mandatory
transport function unset; `SetDirOne`, `WriteOne` and `ToggleOne` with
`Pos > 7`; and `Read` with a null data pointer — each returns
`invalidParam` with an empty bus trace and an untouched transport state. -/
theorem invalidParam_no_bus {σ : Type} (h : PCA9534_Handler σ) (s : σ)
    (Device Address Pos Dir Value : Nat) :
    ((Device ≠ PCA9534_DEVICE_PCA9534 ∧ Device ≠ PCA9534_DEVICE_PCA9534A) →
      PCA9534_Init h Device Address s = (.invalidParam, h, s, [])) ∧
    (Address < 256 → Address > 7 →
      (PCA9534_Init h Device Address s).1 = .invalidParam ∧
      (PCA9534_Init h Device Address s).2.2.1 = s ∧
      (PCA9534_Init h Device Address s).2.2.2 = []) ∧
    (Address ≤ 7 → (h.Platform.SendSet = false ∨ h.Platform.ReceiveSet = false) →
      (PCA9534_Init h Device Address s).1 = .invalidParam ∧
      (PCA9534_Init h Device Address s).2.2.1 = s ∧
      (PCA9534_Init h Device Address s).2.2.2 = []) ∧
    (Pos < 256 → Pos > 7 →
      PCA9534_SetDirOne h Pos Dir s = (.invalidParam, h, s, []) ∧
      PCA9534_WriteOne h Pos Value s = (.invalidParam, h, s, []) ∧
      PCA9534_ToggleOne h Pos s = (.invalidParam, h, s, [])) ∧
    PCA9534_Read h true s = (.invalidParam, 0, h, s, []) := by
  refine ⟨?_, ?_, ?_, ?_, ?_⟩
  · intro hd
    simp [PCA9534_Init, hd]
  · intro hA256 hA7
    have ht : toU8 Address = Address := toU8_eq_of_lt hA256
    by_cases hd : Device ≠ PCA9534_DEVICE_PCA9534 ∧ Device ≠ PCA9534_DEVICE_PCA9534A
    · simp [PCA9534_Init, hd]
    · simp [PCA9534_Init, hd, PCA9534_SetAddressI2C, ht, hA7]
  · intro hA7 hflag
    have hA256 : Address < 256 := by omega
    have ht : toU8 Address = Address := toU8_eq_of_lt hA256
    by_cases hd : Device ≠ PCA9534_DEVICE_PCA9534 ∧ Device ≠ PCA9534_DEVICE_PCA9534A
    · simp [PCA9534_Init, hd]
    · rcases not_and_or.mp hd with hd0 | hd1
      · have hd0' : Device = PCA9534_DEVICE_PCA9534 := not_not.mp hd0
        rcases hflag with hf | hf <;>
          simp [PCA9534_Init, hd0', PCA9534_SetAddressI2C, ht,
            Nat.not_lt.mpr hA7, hf]
      · have hd1' : Device = PCA9534_DEVICE_PCA9534A := not_not.mp hd1
        by_cases hd0 : Device = PCA9534_DEVICE_PCA9534
        · rcases hflag with hf | hf <;>
            simp [PCA9534_Init, hd0, PCA9534_SetAddressI2C, ht,
              Nat.not_lt.mpr hA7, hf, PCA9534_DEVICE_PCA9534,
              PCA9534_DEVICE_PCA9534A]
        · rcases hflag with hf | hf <;>
            simp [PCA9534_Init, hd0, hd1', PCA9534_SetAddressI2C, ht,
              Nat.not_lt.mpr hA7, hf, PCA9534_DEVICE_PCA9534,
              PCA9534_DEVICE_PCA9534A]
  · intro hP256 hP7
    have ht : toU8 Pos = Pos := toU8_eq_of_lt hP256
    refine ⟨?_, ?_, ?_⟩ <;>
      simp [PCA9534_SetDirOne, PCA9534_WriteOne, PCA9534_ToggleOne, ht, hP7]
  · simp [PCA9534_Read]

/-- C9 witness. -/
theorem invalidParam_no_bus_witness :
    (((5 : Nat) ≠ PCA9534_DEVICE_PCA9534 ∧ (5 : Nat) ≠ PCA9534_DEVICE_PCA9534A) ∧
      PCA9534_Init unitHandler 5 0 () = (.invalidParam, unitHandler, (), [])) ∧
    ((9 : Nat) < 256 ∧ (9 : Nat) > 7 ∧
      (PCA9534_Init unitHandler 0 9 ()).1 = .invalidParam ∧
      (PCA9534_Init unitHandler 0 9 ()).2.2.2 = []) ∧
    (PCA9534_SetDirOne unitHandler 9 1 () = (.invalidParam, unitHandler, (), []) ∧
      PCA9534_WriteOne unitHandler 9 1 () = (.invalidParam, unitHandler, (), []) ∧
      PCA9534_ToggleOne unitHandler 9 () = (.invalidParam, unitHandler, (), [])) ∧
    PCA9534_Read unitHandler true () = (.invalidParam, 0, unitHandler, (), []) := by
  have h := invalidParam_no_bus unitHandler () 5 0 9 1 1
  have h2 := invalidParam_no_bus unitHandler () 0 9 9 1 1
  refine ⟨⟨⟨by norm_num [PCA9534_DEVICE_PCA9534], by norm_num [PCA9534_DEVICE_PCA9534A]⟩,
    h.1 ⟨by norm_num [PCA9534_DEVICE_PCA9534], by norm_num [PCA9534_DEVICE_PCA9534A]⟩⟩,
    ⟨by norm_num, by norm_num, (h2.2.1 (by norm_num) (by norm_num)).1,
      (h2.2.1 (by norm_num) (by norm_num)).2.2⟩,
    h.2.2.2.1 (by norm_num) (by norm_num), h.2.2.2.2⟩

/-- C10.  Every operation other than `PCA9534_Init` and
`PCA9534_SetAddressI2C` returns the handler exactly as it received it — for
every transport, every parameter value and hence every outcome, the fields
`Device`, `AddressI2C` and `Platform` are untouched. -/
theorem handler_frame {σ : Type} (h : PCA9534_Handler σ) (s : σ)
    (Dir Pos Value Mask Data : Nat) (b : Bool) :
    (PCA9534_DeInit h s).2.1 = h ∧
    (PCA9534_SetDir h Dir s).2.1 = h ∧
    (PCA9534_SetDirOne h Pos Dir s).2.1 = h ∧
    (PCA9534_Read h b s).2.2.1 = h ∧
    (PCA9534_Write h Data s).2.1 = h ∧
    (PCA9534_WriteOne h Pos Value s).2.1 = h ∧
    (PCA9534_Toggle h Mask s).2.1 = h ∧
    (PCA9534_ToggleOne h Pos s).2.1 = h := by
  refine ⟨?_, ?_, ?_, ?_, ?_, ?_, ?_, ?_⟩
  all_goals
    simp only [PCA9534_DeInit, PCA9534_SetDir, PCA9534_SetDirOne, PCA9534_Read,
      PCA9534_Write, PCA9534_WriteOne, PCA9534_Toggle, PCA9534_ToggleOne]
  all_goals repeat' split
  all_goals rfl
